import Mathlib

/-!
Verification of the caption-association and bounding-box reconciliation
logic of the VisArchPy layout+OCR extraction pipelines
(`visarchpy/pipelines/layout_ocr.py`).

The pipeline control flow (caption policy branches, filter ordering,
error handling, OCR fallback selection) is embedded directly from the
source file.  The helper modules the pipeline imports
(`visarchpy.captions`, `visarchpy.metadata`, `visarchpy.ocr`) are not
part of this repository snapshot; their operations are modelled from the
specification and are marked as such in their doc comments.
-/

set_option autoImplicit false

namespace VisArch

/-! ### Geometry: bounding boxes and directional distance -/

/-- Modelled from the spec: an axis-aligned bounding box `(x0, y0, x1, y1)`
with exact integer coordinates, `x0 ≤ x1`, `y0 ≤ y1` assumed normalized.
Coordinates grow rightwards (x) and downwards (y), matching the spec's
scenario where a caption "down" from image `(100,100,200,200)` is at
`(100,205,200,220)`. -/
structure BoundingBox where
  x0 : ℤ
  y0 : ℤ
  x1 : ℤ
  y1 : ℤ
deriving DecidableEq, Repr

/-- Direction in which a caption is searched relative to an image. -/
inductive Direction where
  | up
  | down
  | left
  | right
deriving DecidableEq, Repr

/-- Modelled from the spec (`visarchpy.captions` is not in the snapshot):
signed gap between the two boxes' nearest edges along the direction's
axis; `none` when the boxes overlap on that axis or `other` is not
positioned in the given direction. -/
def distance_in_direction (self other : BoundingBox) (d : Direction) : Option ℤ :=
  let g : ℤ :=
    match d with
    | .down => other.y0 - self.y1
    | .up => self.y0 - other.y1
    | .right => other.x0 - self.x1
    | .left => self.x0 - other.x1
  if 0 ≤ g then some g else none

/-- Modelled from the spec (`visarchpy.captions` is not in the snapshot):
a text box is a distance match for an image box when its gap in the given
direction satisfies `0 ≤ gap ≤ offset`.  The offset magnitude is taken in
the boxes' own unit. -/
def caption_match (img txt : BoundingBox) (offset : ℤ) (d : Direction) : Bool :=
  match distance_in_direction img txt d with
  | some g => decide (g ≤ offset)
  | none => false

/-! ### Text regions and keyword search -/

/-- Case mapping for ASCII letters, used for the case-insensitive keyword
scan. -/
def lowerChar (c : Char) : Char :=
  if 'A' ≤ c ∧ c ≤ 'Z' then Char.ofNat (c.toNat + 32) else c

/-- Whether `pre` is a prefix of `l`. -/
def prefixHolds : List Char → List Char → Bool
  | [], _ => true
  | _ :: _, [] => false
  | p :: ps, c :: cs => p = c && prefixHolds ps cs

/-- Whether `needle` occurs as a contiguous sublist of `hay`. -/
def charsContain (needle : List Char) : List Char → Bool
  | [] => prefixHolds needle []
  | c :: cs => prefixHolds needle (c :: cs) || charsContain needle cs

/-- Case-insensitive substring test over the boxed text. -/
def strContainsCI (hay needle : String) : Bool :=
  charsContain (needle.data.map lowerChar) (hay.data.map lowerChar)

/-- A text region produced by layout analysis: its bounding box and its
text lines (each line as returned by the layout source's `get_text`). -/
structure LayoutText where
  box : BoundingBox
  lines : List String
deriving DecidableEq, Repr

/-- The full raw text content of a text region, used by the keyword
scan. -/
def LayoutText.content (t : LayoutText) : String :=
  String.join t.lines

/-- Modelled from the spec (`visarchpy.captions` is not in the snapshot):
scans the candidate's text content case-insensitively for any of the
supplied keywords, returning the candidate on a hit and `none`
otherwise. -/
def find_caption_by_text (t : LayoutText) (keywords : List String) :
    Option LayoutText :=
  if keywords.any (fun k => strContainsCI t.content k) then some t else none

/-- The call form of `find_caption_by_distance` in the layout path: wraps
`caption_match` and returns the matched text region. -/
def find_caption_by_distance (img : BoundingBox) (t : LayoutText) (offset : ℤ)
    (d : Direction) : Option LayoutText :=
  if caption_match img t.box offset d then some t else none

/-! ### Visuals and metadata -/

/-- A root path plus entry-relative file path, as in
`visarchpy.metadata.FilePath`. -/
structure FilePathV where
  root_path : String
  file_path : String
deriving DecidableEq, Repr

/-- Modelled from the spec (`visarchpy.metadata` is not in the snapshot):
the externally visible unit of output — page number, bounding box with
unit, optional caption, optional saved-file location. -/
structure Visual where
  document_page : Nat
  bbox : BoundingBox
  bbox_units : String
  caption : Option String := none
  location : Option FilePathV := none
deriving DecidableEq, Repr

/-- Modelled from the spec: setting a caption on a visual that already
has one fails with the `CaptionAlreadySet` condition instead of
overwriting; the pipeline catches this as Python's `Warning`. -/
def Visual.set_caption (v : Visual) (c : String) : Except String Visual :=
  match v.caption with
  | some _ => .error "CaptionAlreadySet"
  | none => .ok { v with caption := some c }

/-- Modelled from the spec: the location field is set after a successful
export. -/
def Visual.set_location (v : Visual) (fp : FilePathV) : Visual :=
  { v with location := some fp }

/-! ### Layout path: caption policy per image region

Embedded from `extract_visuals_by_layout` (layout_ocr.py lines 241-343);
the `pipeline` function (lines 1023-1093) repeats the same logic
verbatim, so one embedding covers both. -/

/-- Settings threaded through the layout path: `layout_settings["caption"]`
plus the output-directory naming data of the enclosing call. -/
structure LayoutCfg where
  offset : ℤ
  direction : Direction
  keywords : List String
  outputDir : String
  entryId : String
  pdfFileDir : String

/-- The `bbox_matches` accumulation loop: every page text region that
passes `find_caption_by_distance` against the image's box, in page
order. -/
def bboxMatches (cfg : LayoutCfg) (imgBox : BoundingBox) (texts : List LayoutText) :
    List LayoutText :=
  texts.filterMap (fun t => find_caption_by_distance imgBox t cfg.offset cfg.direction)

/-- The caption accumulation over `bbox_matches[0]`:
`caption = ""` then `caption += text_line.get_text().strip()` per line. -/
def regionText (t : LayoutText) : String :=
  t.lines.foldl (fun acc l => acc ++ l.trim) ""

/-- The last element of `m :: ms`, i.e. the value the loop variable holds
after the final iteration of `for _text in bbox_matches`. -/
def lastOf (m : LayoutText) : List LayoutText → LayoutText
  | [] => m
  | x :: xs => lastOf x xs

/-- The three-way caption policy of the layout path (lines 259-286):
zero matches set nothing; one match sets its text unguarded (the visual
is freshly created, so the unguarded call cannot fail — the error arm is
unreachable there); with two or more matches, `find_caption_by_text` is
evaluated on each match in a loop whose variable is overwritten, so only
the last match's result is inspected, and the caption set on success is
always `bbox_matches[0]`'s text, with an already-set conflict caught and
logged.  Returns the updated visual and the warnings logged. -/
def layoutCaptionStep (keywords : List String) (ms : List LayoutText)
    (v : Visual) (imgName : String) : Visual × List String :=
  match ms with
  | [] => (v, [])
  | [m] =>
      (match v.set_caption (regionText m) with
       | .ok v' => (v', [])
       | .error _ => (v, []))
  | m0 :: m1 :: rest =>
      match find_caption_by_text (lastOf m1 rest) keywords with
      | some _ =>
          (match v.set_caption (regionText m0) with
           | .ok v' => (v', [])
           | .error _ => (v, ["Caption already set for image: " ++ imgName]))
      | none => (v, [])

/-- The recoverable export failures caught around `iw.export_image`
(lines 298-335): unsupported MCYK format, decoder not supporting the
stream, unsupported PDF stream format, PIL unidentified image, PNG
predictor failure, JBIG2 decoder failure, PDFObjRef filter error. -/
inductive ExportErr where
  | valueError
  | unboundLocalError
  | pdfNotImplementedError
  | unidentifiedImageError
  | indexError
  | keyError
  | typeError
deriving DecidableEq, Repr

/-- The warning message logged for each export failure kind (whitespace
of the source's wrapped string literals elided). -/
def exportWarning (e : ExportErr) (imgName : String) : String :=
  match e with
  | .valueError => "Image with unsupported format wasn't saved:" ++ imgName
  | .unboundLocalError =>
      "Decocder doesn't support image stream, therefore not saved:" ++ imgName
  | .pdfNotImplementedError =>
      "PDF stream unsupported format,  image not saved:" ++ imgName
  | .unidentifiedImageError =>
      "PIL.UnidentifiedImageError io.BytesIO, image not saved:" ++ imgName
  | .indexError => "IndexError, png predictor/decoder failed:" ++ imgName
  | .keyError => "KeyError, JBIG2Globals decoder failed:" ++ imgName
  | .typeError => "TypeError, filter error PDFObjRef:" ++ imgName

deriving instance DecidableEq for Except

/-- An image region found on a page by layout analysis.  The outcome of
the external `ImageWriter.export_image` call for this region is carried
as data: either a recoverable failure kind or the written file name. -/
structure LayoutImg where
  name : String
  bbox : BoundingBox
  exportResult : Except ExportErr String
deriving DecidableEq, Repr

/-- Accumulated pipeline state: visuals added to the metadata entry and
warnings/errors written to the log. -/
structure PipeState where
  visuals : List Visual
  logs : List String
deriving DecidableEq, Repr

/-- Per-image processing of the layout path (lines 241-343): create a
fresh visual, collect distance matches, apply the caption policy, rename
the image with the entry and page ids, then export; a recoverable export
failure logs a warning and discards the visual, a successful export sets
the location and adds the visual to the metadata. -/
def processLayoutImage (cfg : LayoutCfg) (pageNumber : Nat)
    (texts : List LayoutText) (st : PipeState) (img : LayoutImg) : PipeState :=
  let v : Visual :=
    { document_page := pageNumber, bbox := img.bbox, bbox_units := "pt" }
  let ms := bboxMatches cfg img.bbox texts
  let vc := layoutCaptionStep cfg.keywords ms v img.name
  let newName :=
    cfg.entryId ++ "-page" ++ toString pageNumber ++ "-" ++ img.name
  match img.exportResult with
  | .error e =>
      { visuals := st.visuals,
        logs := st.logs ++ vc.2 ++ [exportWarning e newName] }
  | .ok imageFileName =>
      { visuals := st.visuals ++
          [vc.1.set_location
            ⟨cfg.outputDir,
             cfg.entryId ++ "/" ++ cfg.pdfFileDir ++ "/" ++ imageFileName⟩],
        logs := st.logs ++ vc.2 }

/-- A sorted page: page number plus its image and text regions, as
returned by the layout source's `sort_layout_elements`. -/
structure Page where
  page_number : Nat
  images : List LayoutImg
  texts : List LayoutText
deriving DecidableEq, Repr

/-- The image loop of one page (lines 241-343): regions are processed in
order, each region's outcome feeding the next region's state. -/
def processPageImages (cfg : LayoutCfg) (pageNumber : Nat)
    (texts : List LayoutText) : PipeState → List LayoutImg → PipeState
  | st, [] => st
  | st, img :: rest =>
      processPageImages cfg pageNumber texts
        (processLayoutImage cfg pageNumber texts st img) rest

/-- The layout-analysis loop over sorted pages (lines 232-343): pages
with an empty image list are appended to `no_image_pages`, and every
image of every page is processed in order.  Returns the updated state
and the collected OCR-candidate pages. -/
def layoutPages (cfg : LayoutCfg) : PipeState → List Page → PipeState × List Page
  | st, [] => (st, [])
  | st, page :: rest =>
      let st' := processPageImages cfg page.page_number page.texts st page.images
      let r := layoutPages cfg st' rest
      (r.1, (if page.images = [] then [page] else []) ++ r.2)

/-! ### Page sorting and document-level parse failures -/

/-- The parse failures caught around the page-sorting loop
(lines 198-223): malformed/corrupt PDF, unsupported font, the known
pdfminer predictor bug. -/
inductive ParseErr where
  | pdfSyntaxError
  | assertionError (msg : String)
  | typeError (msg : String)
deriving DecidableEq, Repr

/-- The error message logged for each parse failure kind. -/
def parseErrLog (e : ParseErr) (filePath : String) : String :=
  match e with
  | .pdfSyntaxError => "PDFSyntaxError. Couldn't read: " ++ filePath
  | .assertionError m => "AssertionError. Unsupported font: " ++ filePath ++ m
  | .typeError m => "TypeError. Bug with Predictor: " ++ filePath ++ m

/-- A page as it comes out of the external `extract_pages` stream: the
external `sort_layout_elements` either sorts it or raises a parse
failure. -/
inductive RawPage where
  | good (p : Page)
  | bad (e : ParseErr)
deriving DecidableEq, Repr

/-- The page-sorting loop (lines 198-223): sorted pages are appended
until the first parse failure, which is caught, logged, and ends the
loop; pages after it are never sorted. -/
def sortPages (filePath : String) : List RawPage → List Page × List String
  | [] => ([], [])
  | .good p :: rest =>
      let s := sortPages filePath rest
      (p :: s.1, s.2)
  | .bad e :: _ => ([], [parseErrLog e filePath])

/-! ### OCR path: bounding-box filters

`extract_visuals_by_ocr` (lines 404-436) and the `pipeline` function
(lines 1132-1157) apply the same filter sequence; the filters themselves
live in `visarchpy.ocr`, which is not in the snapshot, and are modelled
from the spec. -/

/-- Width of a bounding box. -/
def bwidth (b : BoundingBox) : ℤ := b.x1 - b.x0

/-- Height of a bounding box. -/
def bheight (b : BoundingBox) : ℤ := b.y1 - b.y0

/-- Non-strict, boundary-inclusive containment of `inner` in `outer`. -/
def BoundingBox.containsBox (outer inner : BoundingBox) : Bool :=
  decide (outer.x0 ≤ inner.x0) && decide (outer.y0 ≤ inner.y0) &&
  decide (inner.x1 ≤ outer.x1) && decide (inner.y1 ≤ outer.y1)

/-- The comparison picked for an aspect-ratio filter. -/
inductive RatioCmp where
  | gt
  | lt
deriving DecidableEq, Repr

/-- Modelled from the spec (`visarchpy.ocr` is not in the snapshot):
removes boxes whose width or height falls below the given minimum, and
boxes whose width/height ratio satisfies the given strict comparison
against the threshold fraction `rn/rd` (`>` removes wider-than-ratio
boxes, `<` removes taller-than-ratio boxes; a box at exactly the
threshold is retained).  The ratio test is written cross-multiplied so
it is exact and total. -/
def filter_bbox_by_size (boxes : List (String × BoundingBox))
    (min_width min_height : Option ℤ)
    (aspect_ratio : Option ((ℤ × ℤ) × RatioCmp)) :
    List (String × BoundingBox) :=
  boxes.filter (fun kb =>
    (match min_width with
     | some w => decide (w ≤ bwidth kb.2)
     | none => true) &&
    (match min_height with
     | some h => decide (h ≤ bheight kb.2)
     | none => true) &&
    (match aspect_ratio with
     | some ((rn, rd), .gt) =>
        !decide (rn * bheight kb.2 < rd * bwidth kb.2)
     | some ((rn, rd), .lt) =>
        !decide (rd * bwidth kb.2 < rn * bheight kb.2)
     | none => true))

/-- Modelled from the spec (`visarchpy.ocr` is not in the snapshot):
removes any box contained in a different box of the same set; when two
boxes have identical extent, the one with the lexicographically smaller
id is retained. -/
def filter_bbox_contained (boxes : List (String × BoundingBox)) :
    List (String × BoundingBox) :=
  boxes.filter (fun kb =>
    !(boxes.any (fun other =>
        other.1 ≠ kb.1 && other.2.containsBox kb.2 &&
        (if other.2 = kb.2 then decide (other.1 < kb.1) else true))))

/-- Settings threaded through the OCR path: `ocr_settings` plus the
output-directory naming data of the enclosing call. -/
structure OcrCfg where
  imgWidth : ℤ
  imgHeight : ℤ
  offset : ℤ
  direction : Direction
  outputDir : String
  entryId : String
  pdfFileDir : String

/-- The OCR filter sequence (lines 404-436 / 1132-1157), each filter's
result reassigned to `ocr_results[page_id]["bboxes"]` and so feeding the
next: minimum width/height, aspect ratio `(20/1, ">")`, aspect ratio
`(1/20, "<")`, then containment. -/
def ocrFilterResults (cfg : OcrCfg) (bboxes : List (String × BoundingBox)) :
    List (String × BoundingBox) :=
  let filtered_width_height :=
    filter_bbox_by_size bboxes (some cfg.imgWidth) (some cfg.imgHeight) none
  let bboxes := filtered_width_height
  let filtered_ratio :=
    filter_bbox_by_size bboxes none none (some ((20, 1), .gt))
  let bboxes := filtered_ratio
  let filtered_ratio2 :=
    filter_bbox_by_size bboxes none none (some ((1, 20), .lt))
  let bboxes := filtered_ratio2
  filter_bbox_contained bboxes

/-! ### OCR path: caption matching and visual creation
(lines 442-511 / 1163-1223) -/

/-- The `bbox_matches` loop of the OCR path: every recognized text box
that passes `find_caption_by_distance` against the image box, in
iteration order.  A match carries the text box's geometry. -/
def ocrMatches (cfg : OcrCfg) (imgBox : BoundingBox)
    (textBoxes : List (String × BoundingBox)) : List BoundingBox :=
  textBoxes.filterMap
    (fun tb =>
      if caption_match imgBox tb.2 cfg.offset cfg.direction then some tb.2
      else none)

/-- The caption loop of the OCR path (lines 485-502): for each match in
order, `region_to_string` (the external OCR engine, carried as the
`recognize` oracle) reads the text; a non-empty result is set as the
caption, and an already-set conflict is caught and logged. -/
def ocrCaptionLoop (recognize : BoundingBox → String) :
    List BoundingBox → Visual → List String → Visual × List String
  | [], v, logs => (v, logs)
  | m :: rest, v, logs =>
      let ocr_caption := recognize m
      if ocr_caption = "" then ocrCaptionLoop recognize rest v logs
      else
        match v.set_caption ocr_caption with
        | .ok v' => ocrCaptionLoop recognize rest v' logs
        | .error _ =>
            ocrCaptionLoop recognize rest v
              (logs ++ ["Caption already set for: " ++ reprStr m])

/-- Per-bounding-box processing of the OCR path (lines 444-511): create
a fresh visual, collect distance matches, run the caption loop when
matches exist, then unconditionally set the location to
`{page_id}-{bbox_id}.png` under the entry's directory and add the visual
to the metadata. -/
def ocrBoxStep (cfg : OcrCfg) (recognize : BoundingBox → String) (pageNumber : Nat)
    (textBoxes : List (String × BoundingBox)) (pageId : String) (st : PipeState)
    (idBox : String × BoundingBox) : PipeState :=
  let v : Visual :=
    { document_page := pageNumber, bbox := idBox.2, bbox_units := "px" }
  let ms := ocrMatches cfg idBox.2 textBoxes
  let vc := if ms = [] then (v, st.logs) else ocrCaptionLoop recognize ms v st.logs
  let v' := vc.1.set_location
    ⟨cfg.outputDir,
     cfg.entryId ++ "/" ++ cfg.pdfFileDir ++ "/" ++ pageId ++ "-" ++ idBox.1
       ++ ".png"⟩
  { visuals := st.visuals ++ [v'], logs := vc.2 }

/-- What the external OCR engine returns for one page: the generated
page id and the image-like and text-like box mappings (insertion
ordered). -/
structure OcrResult where
  pageId : String
  bboxes : List (String × BoundingBox)
  text_bboxes : List (String × BoundingBox)

/-- Per-page OCR processing (lines 386-511 / 1108-1223): pages with no
engine results are skipped; otherwise the filter sequence runs and, when
boxes survive, each surviving box is processed in order. -/
def ocrPageStep (cfg : OcrCfg) (recognize : BoundingBox → String)
    (engine : Nat → Option OcrResult) (st : PipeState) (page : Page) :
    PipeState :=
  match engine page.page_number with
  | none => st
  | some r =>
      let surviving := ocrFilterResults cfg r.bboxes
      if surviving.length > 0 then
        surviving.foldl
          (ocrBoxStep cfg recognize page.page_number r.text_bboxes r.pageId) st
      else st

/-! ### The combined per-document pipeline and the batch loop -/

/-- One PDF document as seen by the pipeline: its path and the stream of
raw pages the layout source yields for it. -/
structure DocInput where
  filePath : String
  rawPages : List RawPage

/-- The outcome of processing one document: accumulated visuals and
logs, the sorting-stage error log, and the list of pages the OCR stage
iterated over. -/
structure DocResult where
  state : PipeState
  sortLogs : List String
  ocrProcessed : List Page

/-- The per-document body of `pipeline` (lines 985-1226): sort the
pages (catching document-level parse failures), run the layout loop over
the sorted pages collecting `no_image_pages`, then run the OCR loop over
exactly `no_image_pages`. -/
def pipelineDocument (lcfg : LayoutCfg) (ocfg : OcrCfg)
    (recognize : BoundingBox → String) (engine : Nat → Option OcrResult)
    (doc : DocInput) : DocResult :=
  let sorted := sortPages doc.filePath doc.rawPages
  let afterLayout := layoutPages lcfg ⟨[], []⟩ sorted.1
  let finalState :=
    afterLayout.2.foldl (ocrPageStep ocfg recognize engine) afterLayout.1
  { state := finalState, sortLogs := sorted.2, ocrProcessed := afterLayout.2 }

/-- The batch loop of `pipeline` (lines 954-1226): every PDF file of the
entry is processed in turn; no per-document failure escapes, so the
batch always reaches every document. -/
def batchRun (lcfg : LayoutCfg) (ocfg : OcrCfg) (recognize : BoundingBox → String)
    (engine : Nat → Option OcrResult) (docs : List DocInput) : List DocResult :=
  docs.map (pipelineDocument lcfg ocfg recognize engine)

/-! ### The `Layout` pipeline class (lines 689-789) -/

/-- The configuration of a `Layout` pipeline object: its settings
dictionary may be absent. -/
structure LayoutRunCfg where
  settings : Option LayoutCfg
  metadata_file : Option String

/-- Embedding of `Layout.run` (lines 689-789): after resolving the entry id from the
metadata file, a missing settings dictionary raises
`ValueError("No settings provided")` before any output directory,
logger, or document processing is touched; with settings present every
document is layout-processed and the run returns normally. -/
def layoutRun (p : LayoutRunCfg) (docs : List DocInput) :
    Except String (List (PipeState × List String)) :=
  match p.settings with
  | none => .error "No settings provided"
  | some cfg =>
      .ok (docs.map (fun d =>
        let s := sortPages d.filePath d.rawPages
        let r := layoutPages cfg ⟨[], []⟩ s.1
        (r.1, s.2)))

/-! ### Helper lemmas -/

theorem set_caption_of_none {v : Visual} (h : v.caption = none) (c : String) :
    v.set_caption c = .ok { v with caption := some c } := by
  simp [Visual.set_caption, h]

theorem set_caption_of_some {v : Visual} {c0 : String} (h : v.caption = some c0)
    (c : String) : v.set_caption c = .error "CaptionAlreadySet" := by
  simp [Visual.set_caption, h]

/-- The conflict message the OCR caption loop logs for a match. -/
def conflictMsg (m : BoundingBox) : String :=
  "Caption already set for: " ++ reprStr m

/-- Once the visual holds a caption, the OCR caption loop leaves it
untouched and logs one conflict warning per remaining match with
non-empty recognized text. -/
theorem ocrCaptionLoop_already {f : BoundingBox → String} {v : Visual} {c : String}
    (h : v.caption = some c) (ms : List BoundingBox) (logs : List String) :
    ocrCaptionLoop f ms v logs =
      (v, logs ++ (ms.filter (fun m => decide (f m ≠ ""))).map conflictMsg) := by
  induction ms generalizing logs with
  | nil => simp [ocrCaptionLoop]
  | cons m rest ih =>
    by_cases hm : f m = ""
    · simp [ocrCaptionLoop, hm, ih, List.filter_cons, conflictMsg]
    · simp [ocrCaptionLoop, hm, set_caption_of_some h, ih, List.filter_cons,
        conflictMsg, List.append_assoc]

/-- On a caption-free visual, the OCR caption loop sets the first
non-empty recognized text and then conflicts on each later non-empty
one. -/
theorem ocrCaptionLoop_sets_first {f : BoundingBox → String} {v : Visual}
    (hv : v.caption = none) (pre : List BoundingBox) (m0 : BoundingBox)
    (post : List BoundingBox) (logs : List String)
    (hpre : ∀ m ∈ pre, f m = "") (hm0 : f m0 ≠ "") :
    ocrCaptionLoop f (pre ++ m0 :: post) v logs =
      ({ v with caption := some (f m0) },
       logs ++ (post.filter (fun m => decide (f m ≠ ""))).map conflictMsg) := by
  induction pre with
  | nil =>
    simp only [List.nil_append, ocrCaptionLoop, hm0, if_neg hm0,
      set_caption_of_none hv]
    exact ocrCaptionLoop_already rfl post logs
  | cons m pre ih =>
    have hm : f m = "" := hpre m (List.mem_cons_self m pre)
    simp only [List.cons_append, ocrCaptionLoop, hm, if_pos rfl]
    exact ih (fun x hx => hpre x (List.mem_cons_of_mem m hx))

/-- The visual the layout path adds for an image region whose export
wrote `imageFileName`. -/
def layoutVisualOf (cfg : LayoutCfg) (pageNumber : Nat)
    (texts : List LayoutText) (img : LayoutImg) (imageFileName : String) :
    Visual :=
  (layoutCaptionStep cfg.keywords (bboxMatches cfg img.bbox texts)
      { document_page := pageNumber, bbox := img.bbox, bbox_units := "pt" }
      img.name).1.set_location
    ⟨cfg.outputDir,
     cfg.entryId ++ "/" ++ cfg.pdfFileDir ++ "/" ++ imageFileName⟩

/-- Per-image processing adds the exported visual on success and nothing
on a recoverable export failure. -/
theorem processLayoutImage_visuals (cfg : LayoutCfg) (pageNumber : Nat)
    (texts : List LayoutText) (st : PipeState) (img : LayoutImg) :
    (processLayoutImage cfg pageNumber texts st img).visuals =
      st.visuals ++
        (img.exportResult.toOption.map
          (layoutVisualOf cfg pageNumber texts img)).toList := by
  cases h : img.exportResult <;>
    simp [processLayoutImage, h, layoutVisualOf, Except.toOption]

/-- The page's image loop adds exactly the visuals of the regions whose
export succeeded, in region order. -/
theorem processPageImages_visuals (cfg : LayoutCfg) (pageNumber : Nat)
    (texts : List LayoutText) (imgs : List LayoutImg) :
    ∀ st : PipeState,
      (processPageImages cfg pageNumber texts st imgs).visuals =
        st.visuals ++
          imgs.flatMap (fun i =>
            (i.exportResult.toOption.map
              (layoutVisualOf cfg pageNumber texts i)).toList) := by
  induction imgs with
  | nil => intro st; simp [processPageImages]
  | cons i rest ih =>
    intro st
    simp only [processPageImages, ih, processLayoutImage_visuals,
      List.flatMap_cons, List.append_assoc]

/-- A page is collected into `no_image_pages` exactly when it is one of
the sorted pages and its image list is empty. -/
theorem mem_layoutPages_snd (cfg : LayoutCfg) (pages : List Page) :
    ∀ (st : PipeState) (p : Page),
      p ∈ (layoutPages cfg st pages).2 ↔ p ∈ pages ∧ p.images = [] := by
  induction pages with
  | nil => intro st p; simp [layoutPages]
  | cons page rest ih =>
    intro st p
    by_cases h : page.images = []
    · simp only [layoutPages, if_pos h, List.singleton_append, List.mem_cons,
        ih, List.mem_cons]
      constructor
      · rintro (rfl | ⟨hp, hi⟩)
        · exact ⟨Or.inl rfl, h⟩
        · exact ⟨Or.inr hp, hi⟩
      · rintro ⟨rfl | hp, hi⟩
        · exact Or.inl rfl
        · exact Or.inr ⟨hp, hi⟩
    · simp only [layoutPages, if_neg h, List.nil_append, ih, List.mem_cons]
      constructor
      · rintro ⟨hp, hi⟩
        exact ⟨Or.inr hp, hi⟩
      · rintro ⟨rfl | hp, hi⟩
        · exact absurd hi h
        · exact ⟨hp, hi⟩

/-- Page sorting keeps the pages before the first parse failure, logs
the failure once, and never sorts the pages after it. -/
theorem sortPages_abort (fp : String) (pres : List Page) (e : ParseErr)
    (rest : List RawPage) :
    sortPages fp (pres.map RawPage.good ++ .bad e :: rest) =
      (pres, [parseErrLog e fp]) := by
  induction pres with
  | nil => simp [sortPages]
  | cons p ps ih => simp [sortPages, ih]

/-! ### Concrete fixtures used by counterexamples and witnesses -/

/-- The default caption settings of the layout path, with sample
output-naming data. -/
def cfgSample : LayoutCfg :=
  { offset := 4, direction := .down,
    keywords := ["figure", "caption", "figuur"],
    outputDir := "out", entryId := "00001", pdfFileDir := "pdf-001" }

/-- A page-text region just below the sample image box whose content
contains the keyword "figure" (capitalised, so the scan must be
case-insensitive). -/
def tKeyword : LayoutText := ⟨⟨0, 11, 10, 12⟩, ["Figure 1. Site plan"]⟩

/-- A page-text region just below `tKeyword` with no keyword in its
content. -/
def tPlain : LayoutText := ⟨⟨0, 12, 10, 13⟩, ["just body text"]⟩

/-- A freshly created visual for the sample image box, as the layout
path constructs before caption matching. -/
def vFresh : Visual :=
  { document_page := 1, bbox := ⟨0, 0, 10, 10⟩, bbox_units := "pt" }

/-! ### Claim C1 -/

/-- Claim C1 as stated is false on the code.  Concretely: the image box
`(0,0,10,10)` has two distance matches (both within the 4-unit downward
offset); the first match contains the keyword "figure" and the last does
not.  The claim predicts that the keyword region's text becomes the
caption, but the code leaves the visual uncaptioned, because the
`for _text in bbox_matches` loop overwrites `text_match` and only the
last match's keyword check survives. -/
theorem c1_any_keyword_counterexample :
    bboxMatches cfgSample ⟨0, 0, 10, 10⟩ [tKeyword, tPlain] =
      [tKeyword, tPlain] ∧
    (find_caption_by_text tKeyword cfgSample.keywords).isSome = true ∧
    (find_caption_by_text tPlain cfgSample.keywords).isSome = false ∧
    (layoutCaptionStep cfgSample.keywords [tKeyword, tPlain] vFresh
        "img").1.caption = none := by
  refine ⟨by decide, by decide, by decide, by decide⟩

/-- C1 (amended): with two or more distance matches, `find_caption_by_text`
runs over every match but only the last result is inspected: if the LAST
matched region contains a configured keyword (case-insensitively), the
caption is set to the FIRST match's concatenated trimmed text; if the
last matched region contains no keyword, the image remains uncaptioned,
even when an earlier match contains a keyword. -/
theorem c1_last_keyword_first_text (kws : List String) (m0 m1 : LayoutText)
    (rest : List LayoutText) (v : Visual) (name : String)
    (hv : v.caption = none) :
    (layoutCaptionStep kws (m0 :: m1 :: rest) v name).1.caption =
      if (find_caption_by_text (lastOf m1 rest) kws).isSome
      then some (regionText m0)
      else none := by
  cases hk : find_caption_by_text (lastOf m1 rest) kws with
  | none => simp [layoutCaptionStep, hk, hv]
  | some t => simp [layoutCaptionStep, hk, set_caption_of_none hv]

/-- Witness for C1's amended theorem: at the concrete two-match set whose
last region holds the keyword, the caption is the first region's text. -/
theorem c1_last_keyword_first_text_witness :
    vFresh.caption = none ∧
    (layoutCaptionStep cfgSample.keywords [tPlain, tKeyword] vFresh
        "img").1.caption =
      (if (find_caption_by_text (lastOf tKeyword [])
            cfgSample.keywords).isSome
       then some (regionText tPlain)
       else none) :=
  ⟨rfl, c1_last_keyword_first_text cfgSample.keywords tPlain tKeyword [] vFresh
    "img" rfl⟩

/-! ### Claim C2 -/

/-- C2: with exactly one distance match, the caption set on the visual
is exactly that match's text lines concatenated in order, each line
whitespace-trimmed; nothing else about the visual changes and nothing is
logged. -/
theorem c2_single_match_verbatim (kws : List String) (m : LayoutText)
    (v : Visual) (name : String) (hv : v.caption = none) :
    layoutCaptionStep kws [m] v name =
      ({ v with caption := some (String.join (m.lines.map String.trim)) },
       []) := by
  have hjoin : regionText m = String.join (m.lines.map String.trim) := by
    simp [regionText, String.join, List.foldl_map]
  simp [layoutCaptionStep, set_caption_of_none hv, hjoin]

/-- Witness for C2: the single keyword region's lines, trimmed and
concatenated, become the caption of the fresh sample visual. -/
theorem c2_single_match_verbatim_witness :
    vFresh.caption = none ∧
    layoutCaptionStep cfgSample.keywords [tKeyword] vFresh "img" =
      ({ vFresh with
          caption := some (String.join (tKeyword.lines.map String.trim)) },
       []) :=
  ⟨rfl, c2_single_match_verbatim cfgSample.keywords tKeyword vFresh "img" rfl⟩

/-! ### Claim C3 -/

/-- C3: setting a second caption on a visual that already has one fails
with the `CaptionAlreadySet` conflict and leaves the original caption
unchanged, and both pipeline callers catch the conflict, log it as a
warning, and keep processing: the OCR caption loop finishes with the
original caption and one warning per further non-empty match, and the
layout multi-match branch returns the visual unchanged with the
already-set warning. -/
theorem c3_caption_conflict_nonfatal (v : Visual) (c : String)
    (h : v.caption = some c) (c' : String) (f : BoundingBox → String)
    (ms : List BoundingBox) (logs : List String) (kws : List String)
    (m0 m1 : LayoutText) (rest : List LayoutText) (name : String)
    (hk : (find_caption_by_text (lastOf m1 rest) kws).isSome = true) :
    v.set_caption c' = .error "CaptionAlreadySet" ∧
    ocrCaptionLoop f ms v logs =
      (v, logs ++ (ms.filter (fun m => decide (f m ≠ ""))).map conflictMsg) ∧
    layoutCaptionStep kws (m0 :: m1 :: rest) v name =
      (v, ["Caption already set for image: " ++ name]) := by
  refine ⟨set_caption_of_some h c', ocrCaptionLoop_already h ms logs, ?_⟩
  obtain ⟨t, ht⟩ := Option.isSome_iff_exists.mp hk
  simp [layoutCaptionStep, ht, set_caption_of_some h]

/-- Witness for C3 at a visual already captioned "old": the second set
fails, the OCR loop logs one conflict for its single non-empty match,
and the layout multi-match branch logs the already-set warning. -/
theorem c3_caption_conflict_nonfatal_witness :
    ({ vFresh with caption := some "old" } : Visual).caption = some "old" ∧
    (find_caption_by_text (lastOf tKeyword [])
        cfgSample.keywords).isSome = true ∧
    (({ vFresh with caption := some "old" } : Visual).set_caption "new" =
        .error "CaptionAlreadySet" ∧
      ocrCaptionLoop (fun _ => "txt") [⟨0, 11, 10, 12⟩]
          { vFresh with caption := some "old" } [] =
        ({ vFresh with caption := some "old" },
         [] ++ (([⟨0, 11, 10, 12⟩] : List BoundingBox).filter
            (fun m => decide ((fun _ => "txt") m ≠ ""))).map conflictMsg) ∧
      layoutCaptionStep cfgSample.keywords [tPlain, tKeyword]
          { vFresh with caption := some "old" } "img" =
        ({ vFresh with caption := some "old" },
         ["Caption already set for image: " ++ "img"])) :=
  ⟨rfl, by decide,
   c3_caption_conflict_nonfatal { vFresh with caption := some "old" } "old"
     rfl "new" (fun _ => "txt") [⟨0, 11, 10, 12⟩] [] cfgSample.keywords
     tPlain tKeyword [] "img" (by decide)⟩

/-! ### Claim C4 -/

/-- C4: within the combined pipeline a page is handed to the OCR stage
exactly when it is one of the document's sorted pages and its layout
pass yielded an empty image list; a page with at least one image region
is never OCR-processed. -/
theorem c4_ocr_iff_no_images (lcfg : LayoutCfg) (ocfg : OcrCfg)
    (recognize : BoundingBox → String) (engine : Nat → Option OcrResult)
    (doc : DocInput) (p : Page) :
    p ∈ (pipelineDocument lcfg ocfg recognize engine doc).ocrProcessed ↔
      p ∈ (sortPages doc.filePath doc.rawPages).1 ∧ p.images = [] := by
  unfold pipelineDocument
  exact mem_layoutPages_snd lcfg (sortPages doc.filePath doc.rawPages).1
    ⟨[], []⟩ p

/-! ### Claim C5 -/

/-- C5: an image region whose export reports a recoverable extraction
failure contributes no visual at all — the metadata is unchanged, so the
discarded visual in particular never receives a location — the matching
warning is appended to the log, and the page loop continues so that the
remaining regions still contribute exactly their own visuals. -/
theorem c5_export_failure_discards (cfg : LayoutCfg) (pageNumber : Nat)
    (texts : List LayoutText) (st : PipeState) (img : LayoutImg)
    (e : ExportErr) (rest : List LayoutImg)
    (h : img.exportResult = .error e) :
    (processLayoutImage cfg pageNumber texts st img).visuals = st.visuals ∧
    (processLayoutImage cfg pageNumber texts st img).logs =
      st.logs ++
        (layoutCaptionStep cfg.keywords (bboxMatches cfg img.bbox texts)
          { document_page := pageNumber, bbox := img.bbox, bbox_units := "pt" }
          img.name).2 ++
        [exportWarning e
          (cfg.entryId ++ "-page" ++ toString pageNumber ++ "-" ++ img.name)] ∧
    (processPageImages cfg pageNumber texts st (img :: rest)).visuals =
      st.visuals ++
        rest.flatMap (fun i =>
          (i.exportResult.toOption.map
            (layoutVisualOf cfg pageNumber texts i)).toList) := by
  refine ⟨?_, ?_, ?_⟩
  · simp [processLayoutImage, h]
  · simp [processLayoutImage, h]
  · have hstep : (processLayoutImage cfg pageNumber texts st img).visuals =
        st.visuals := by simp [processLayoutImage, h]
    calc (processPageImages cfg pageNumber texts st (img :: rest)).visuals
        = (processLayoutImage cfg pageNumber texts st img).visuals ++
            rest.flatMap (fun i =>
              (i.exportResult.toOption.map
                (layoutVisualOf cfg pageNumber texts i)).toList) := by
          simp [processPageImages, processPageImages_visuals]
      _ = st.visuals ++
            rest.flatMap (fun i =>
              (i.exportResult.toOption.map
                (layoutVisualOf cfg pageNumber texts i)).toList) := by
          rw [hstep]

/-- Witness for C5: a MCYK-format export failure on the sample image
leaves the metadata empty, logs the warning, and the page loop still
adds the succeeding next region's visual. -/
theorem c5_export_failure_discards_witness :
    ({ name := "im0", bbox := ⟨0, 0, 10, 10⟩,
       exportResult := .error .valueError } : LayoutImg).exportResult =
      .error .valueError ∧
    ((processLayoutImage cfgSample 1 [] ⟨[], []⟩
        { name := "im0", bbox := ⟨0, 0, 10, 10⟩,
          exportResult := .error .valueError }).visuals = [] ∧
      (processLayoutImage cfgSample 1 [] ⟨[], []⟩
        { name := "im0", bbox := ⟨0, 0, 10, 10⟩,
          exportResult := .error .valueError }).logs =
        [] ++
          (layoutCaptionStep cfgSample.keywords
            (bboxMatches cfgSample ⟨0, 0, 10, 10⟩ [])
            { document_page := 1, bbox := ⟨0, 0, 10, 10⟩, bbox_units := "pt" }
            "im0").2 ++
          [exportWarning .valueError
            (cfgSample.entryId ++ "-page" ++ toString 1 ++ "-" ++ "im0")] ∧
      (processPageImages cfgSample 1 [] ⟨[], []⟩
        [{ name := "im0", bbox := ⟨0, 0, 10, 10⟩,
           exportResult := .error .valueError },
         { name := "im1", bbox := ⟨0, 0, 10, 10⟩,
           exportResult := .ok "f.png" }]).visuals =
        [] ++
          ([({ name := "im1", bbox := ⟨0, 0, 10, 10⟩,
               exportResult := .ok "f.png" } : LayoutImg)].flatMap (fun i =>
            (i.exportResult.toOption.map
              (layoutVisualOf cfgSample 1 [] i)).toList))) :=
  ⟨rfl,
   c5_export_failure_discards cfgSample 1 [] ⟨[], []⟩
     { name := "im0", bbox := ⟨0, 0, 10, 10⟩,
       exportResult := .error .valueError }
     .valueError
     [{ name := "im1", bbox := ⟨0, 0, 10, 10⟩, exportResult := .ok "f.png" }]
     rfl⟩

/-! ### Claim C6 -/

/-- A sample page holding one image region whose export succeeds. -/
def pageWithImage : Page :=
  { page_number := 1,
    images := [{ name := "im1", bbox := ⟨0, 0, 10, 10⟩,
                 exportResult := .ok "00001-page1-im1.png" }],
    texts := [] }

/-- A sample document whose second page raises `PDFSyntaxError` during
sorting, after the first page was sorted successfully. -/
def c6Doc : DocInput :=
  { filePath := "doc.pdf",
    rawPages := [.good pageWithImage, .bad .pdfSyntaxError] }

/-- Claim C6 as stated is false on the code.  On a document whose second
page raises a parse failure during sorting, the failure is logged, but
the document is NOT excluded from further layout processing: the page
sorted before the failure is still layout-processed and its visual is
added to the metadata. -/
theorem c6_not_excluded_counterexample :
    (pipelineDocument cfgSample
        { imgWidth := 120, imgHeight := 120, offset := 50,
          direction := .down, outputDir := "out", entryId := "00001",
          pdfFileDir := "pdf-001" }
        (fun _ => "") (fun _ => none) c6Doc).sortLogs =
      ["PDFSyntaxError. Couldn't read: doc.pdf"] ∧
    (pipelineDocument cfgSample
        { imgWidth := 120, imgHeight := 120, offset := 50,
          direction := .down, outputDir := "out", entryId := "00001",
          pdfFileDir := "pdf-001" }
        (fun _ => "") (fun _ => none) c6Doc).state.visuals ≠ [] := by
  refine ⟨by decide, by decide⟩

/-- C6 (amended): a parse failure during page sorting is caught and
logged and aborts the sorting loop at the failing page, so pages after
it are never layout-processed; pages sorted before the failure are still
layout-processed (and OCR-processed when candidates), and the batch
continues with every remaining document. -/
theorem c6_sort_abort_batch_continues (fp : String) (pres : List Page)
    (e : ParseErr) (rest : List RawPage) (lcfg : LayoutCfg) (ocfg : OcrCfg)
    (recognize : BoundingBox → String) (engine : Nat → Option OcrResult)
    (docs : List DocInput) (doc : DocInput)
    (hdoc : doc.rawPages = pres.map RawPage.good ++ .bad e :: rest)
    (hfp : doc.filePath = fp) :
    (pipelineDocument lcfg ocfg recognize engine doc).sortLogs =
      [parseErrLog e fp] ∧
    (pipelineDocument lcfg ocfg recognize engine doc).state =
      ((layoutPages lcfg ⟨[], []⟩ pres).2.foldl
        (ocrPageStep ocfg recognize engine)
        (layoutPages lcfg ⟨[], []⟩ pres).1) ∧
    (batchRun lcfg ocfg recognize engine (doc :: docs)).length =
      docs.length + 1 := by
  refine ⟨?_, ?_, ?_⟩
  · unfold pipelineDocument
    rw [hdoc, hfp, sortPages_abort]
  · unfold pipelineDocument
    rw [hdoc, hfp, sortPages_abort]
  · simp [batchRun]

/-- Witness for C6's amended theorem at the sample document: the parse
failure is logged, processing continues over the page sorted before the
failure, and a one-document batch after it still runs. -/
theorem c6_sort_abort_batch_continues_witness :
    c6Doc.rawPages =
      [pageWithImage].map RawPage.good ++ .bad .pdfSyntaxError :: [] ∧
    ((pipelineDocument cfgSample
        { imgWidth := 120, imgHeight := 120, offset := 50,
          direction := .down, outputDir := "out", entryId := "00001",
          pdfFileDir := "pdf-001" }
        (fun _ => "") (fun _ => none) c6Doc).sortLogs =
      [parseErrLog .pdfSyntaxError "doc.pdf"] ∧
     (pipelineDocument cfgSample
        { imgWidth := 120, imgHeight := 120, offset := 50,
          direction := .down, outputDir := "out", entryId := "00001",
          pdfFileDir := "pdf-001" }
        (fun _ => "") (fun _ => none) c6Doc).state =
      ((layoutPages cfgSample ⟨[], []⟩ [pageWithImage]).2.foldl
        (ocrPageStep
          { imgWidth := 120, imgHeight := 120, offset := 50,
            direction := .down, outputDir := "out", entryId := "00001",
            pdfFileDir := "pdf-001" }
          (fun _ => "") (fun _ => none))
        (layoutPages cfgSample ⟨[], []⟩ [pageWithImage]).1) ∧
     (batchRun cfgSample
        { imgWidth := 120, imgHeight := 120, offset := 50,
          direction := .down, outputDir := "out", entryId := "00001",
          pdfFileDir := "pdf-001" }
        (fun _ => "") (fun _ => none) [c6Doc, c6Doc]).length = 1 + 1) :=
  ⟨rfl,
   c6_sort_abort_batch_continues "doc.pdf" [pageWithImage] .pdfSyntaxError []
     cfgSample
     { imgWidth := 120, imgHeight := 120, offset := 50, direction := .down,
       outputDir := "out", entryId := "00001", pdfFileDir := "pdf-001" }
     (fun _ => "") (fun _ => none) [c6Doc] c6Doc rfl rfl⟩

/-! ### Claim C7 -/

/-- C7: the OCR bounding-box filters run in the fixed order — minimum
width/height, aspect ratio `(20/1, ">")`, aspect ratio `(1/20, "<")`,
containment — with each filter's output being the next filter's input;
consequently every surviving box was among the raw boxes and satisfies
the three size/ratio predicates. -/
theorem c7_filter_order (cfg : OcrCfg) (boxes : List (String × BoundingBox)) :
    ocrFilterResults cfg boxes =
      filter_bbox_contained
        (filter_bbox_by_size
          (filter_bbox_by_size
            (filter_bbox_by_size boxes (some cfg.imgWidth)
              (some cfg.imgHeight) none)
            none none (some ((20, 1), .gt)))
          none none (some ((1, 20), .lt))) ∧
    ∀ kb ∈ ocrFilterResults cfg boxes,
      kb ∈ boxes ∧ cfg.imgWidth ≤ bwidth kb.2 ∧
        cfg.imgHeight ≤ bheight kb.2 ∧
        ¬(20 * bheight kb.2 < 1 * bwidth kb.2) ∧
        ¬(20 * bwidth kb.2 < 1 * bheight kb.2) := by
  constructor
  · rfl
  · intro kb hkb
    unfold ocrFilterResults filter_bbox_contained filter_bbox_by_size at hkb
    have h3 := List.mem_of_mem_filter hkb
    obtain ⟨h2, hp2⟩ := List.mem_filter.mp h3
    obtain ⟨h1, hp1⟩ := List.mem_filter.mp h2
    obtain ⟨hb, hp0⟩ := List.mem_filter.mp h1
    simp only [Bool.and_eq_true, Bool.not_eq_true', decide_eq_true_eq,
      decide_eq_false_iff_not] at hp0 hp1 hp2
    exact ⟨hb, hp0.1.1, hp0.1.2, hp1.2, hp2.2⟩

/-- The default OCR settings with sample output-naming data. -/
def ocrCfgSample : OcrCfg :=
  { imgWidth := 120, imgHeight := 120, offset := 50, direction := .down,
    outputDir := "out", entryId := "00001", pdfFileDir := "pdf-001" }

/-- Witness for C7: a 200-by-200 box survives the whole filter sequence
and satisfies every filter's predicate. -/
theorem c7_filter_order_witness :
    (("b1", (⟨0, 0, 200, 200⟩ : BoundingBox)) ∈
      ocrFilterResults ocrCfgSample [("b1", ⟨0, 0, 200, 200⟩)]) ∧
    (("b1", (⟨0, 0, 200, 200⟩ : BoundingBox)) ∈
        [("b1", (⟨0, 0, 200, 200⟩ : BoundingBox))] ∧
      ocrCfgSample.imgWidth ≤ bwidth (⟨0, 0, 200, 200⟩ : BoundingBox) ∧
      ocrCfgSample.imgHeight ≤ bheight (⟨0, 0, 200, 200⟩ : BoundingBox) ∧
      ¬(20 * bheight (⟨0, 0, 200, 200⟩ : BoundingBox) <
          1 * bwidth (⟨0, 0, 200, 200⟩ : BoundingBox)) ∧
      ¬(20 * bwidth (⟨0, 0, 200, 200⟩ : BoundingBox) <
          1 * bheight (⟨0, 0, 200, 200⟩ : BoundingBox))) :=
  ⟨by decide,
   (c7_filter_order ocrCfgSample [("b1", ⟨0, 0, 200, 200⟩)]).2
     ("b1", ⟨0, 0, 200, 200⟩) (by decide)⟩

/-! ### Claim C8 -/

/-- C8: running the `Layout` pipeline with `settings` equal to `None`
raises `ValueError("No settings provided")` before any document is
processed — the run's only outcome is that error — while with settings
present the run always returns normally, so the missing-configuration
error is the one that escapes to the top level. -/
theorem c8_no_settings_aborts (p : LayoutRunCfg) (docs : List DocInput)
    (h : p.settings = none) (p' : LayoutRunCfg) (cfg : LayoutCfg)
    (docs' : List DocInput) (h' : p'.settings = some cfg) :
    layoutRun p docs = .error "No settings provided" ∧
    ∃ r, layoutRun p' docs' = .ok r := by
  constructor
  · unfold layoutRun
    rw [h]
  · unfold layoutRun
    rw [h']
    exact ⟨_, rfl⟩

/-- Witness for C8: the run with absent settings errors out, and a run
with the sample settings returns normally. -/
theorem c8_no_settings_aborts_witness :
    ({ settings := none, metadata_file := none } : LayoutRunCfg).settings =
      none ∧
    ({ settings := some cfgSample, metadata_file := none } :
        LayoutRunCfg).settings = some cfgSample ∧
    (layoutRun { settings := none, metadata_file := none } [] =
        .error "No settings provided" ∧
      ∃ r, layoutRun { settings := some cfgSample, metadata_file := none }
          [] = .ok r) :=
  ⟨rfl, rfl,
   c8_no_settings_aborts { settings := none, metadata_file := none } [] rfl
     { settings := some cfgSample, metadata_file := none } cfgSample [] rfl⟩

/-! ### Claim C9 -/

/-- C9: in the OCR path every bounding box that survives filtering
produces a visual that is added to the metadata with its location set to
`{page_id}-{bbox_id}.png` under the entry's directory, unconditionally:
the statement holds for every `recognize` oracle (so also when every
recognized caption is empty) and every set of text boxes (so also when
no caption match exists), and the crop/export step plays no part. -/
theorem c9_location_set_unconditionally (cfg : OcrCfg)
    (recognize : BoundingBox → String) (pageNumber : Nat)
    (textBoxes : List (String × BoundingBox)) (pageId : String)
    (st : PipeState) (idBox : String × BoundingBox) :
    ∃ v : Visual,
      (ocrBoxStep cfg recognize pageNumber textBoxes pageId st idBox).visuals
        = st.visuals ++ [v] ∧
      v.location = some ⟨cfg.outputDir,
        cfg.entryId ++ "/" ++ cfg.pdfFileDir ++ "/" ++ pageId ++ "-"
          ++ idBox.1 ++ ".png"⟩ :=
  ⟨_, rfl, rfl⟩

/-! ### Claim C10 -/

/-- C10: in the OCR path with at least one distance match, the caption
loop attempts `set_caption` for each match in iteration order with
non-empty recognized text; the first such match's text becomes the
caption of the added visual, and each later non-empty match raises the
conflict, which is caught and logged — one warning per later non-empty
match. -/
theorem c10_first_nonempty_text_caption (cfg : OcrCfg)
    (recognize : BoundingBox → String) (pageNumber : Nat)
    (textBoxes : List (String × BoundingBox)) (pageId : String)
    (st : PipeState) (idBox : String × BoundingBox) (pre : List BoundingBox)
    (m0 : BoundingBox) (post : List BoundingBox)
    (hms : ocrMatches cfg idBox.2 textBoxes = pre ++ m0 :: post)
    (hpre : ∀ m ∈ pre, recognize m = "") (hm0 : recognize m0 ≠ "") :
    ocrBoxStep cfg recognize pageNumber textBoxes pageId st idBox =
      { visuals := st.visuals ++
          [{ document_page := pageNumber, bbox := idBox.2,
             bbox_units := "px", caption := some (recognize m0),
             location := some ⟨cfg.outputDir,
               cfg.entryId ++ "/" ++ cfg.pdfFileDir ++ "/" ++ pageId ++ "-"
                 ++ idBox.1 ++ ".png"⟩ }],
        logs := st.logs ++
          (post.filter (fun m => decide (recognize m ≠ ""))).map
            conflictMsg } := by
  unfold ocrBoxStep
  rw [hms]
  dsimp only
  rw [if_neg (show ¬(pre ++ m0 :: post = []) by simp),
    ocrCaptionLoop_sets_first rfl pre m0 post st.logs hpre hm0]
  rfl

/-- Witness for C10 at two concrete matches with non-empty text: the
first match's text becomes the caption and the second logs the
conflict. -/
theorem c10_first_nonempty_text_caption_witness :
    ocrMatches ocrCfgSample (⟨0, 0, 100, 100⟩ : BoundingBox)
        [("t1", ⟨0, 110, 100, 120⟩), ("t2", ⟨0, 130, 100, 140⟩)] =
      [] ++ ⟨0, 110, 100, 120⟩ :: [⟨0, 130, 100, 140⟩] ∧
    ((fun b : BoundingBox => if b.y0 = 110 then "Figure 9" else "stray")
        ⟨0, 110, 100, 120⟩ ≠ "") ∧
    ocrBoxStep ocrCfgSample
        (fun b : BoundingBox => if b.y0 = 110 then "Figure 9" else "stray")
        3 [("t1", ⟨0, 110, 100, 120⟩), ("t2", ⟨0, 130, 100, 140⟩)]
        "00001-page-3" ⟨[], []⟩ ("b1", ⟨0, 0, 100, 100⟩) =
      { visuals := [] ++
          [{ document_page := 3, bbox := ⟨0, 0, 100, 100⟩,
             bbox_units := "px",
             caption := some ((fun b : BoundingBox =>
               if b.y0 = 110 then "Figure 9" else "stray")
                 ⟨0, 110, 100, 120⟩),
             location := some ⟨ocrCfgSample.outputDir,
               ocrCfgSample.entryId ++ "/" ++ ocrCfgSample.pdfFileDir ++ "/"
                 ++ "00001-page-3" ++ "-" ++ "b1" ++ ".png"⟩ }],
        logs := [] ++
          (([⟨0, 130, 100, 140⟩] : List BoundingBox).filter
            (fun m => decide ((fun b : BoundingBox =>
              if b.y0 = 110 then "Figure 9" else "stray") m ≠ ""))).map
            conflictMsg } :=
  ⟨by decide, by decide,
   c10_first_nonempty_text_caption ocrCfgSample
     (fun b : BoundingBox => if b.y0 = 110 then "Figure 9" else "stray")
     3 [("t1", ⟨0, 110, 100, 120⟩), ("t2", ⟨0, 130, 100, 140⟩)]
     "00001-page-3" ⟨[], []⟩ ("b1", ⟨0, 0, 100, 100⟩)
     [] ⟨0, 110, 100, 120⟩ [⟨0, 130, 100, 140⟩]
     (by decide) (by simp) (by decide)⟩

end VisArch
